import Mathlib

/-!
A shallow embedding of the event-producer pull/sync engine
(`frappe/events_streaming/doctype/event_producer/event_producer.py`).

Documents live in a local database modelled as a list of records plus a
counter used to generate local names.  The producer site is modelled as a
list of remote documents (for `producer_site.get_doc`) together with a list
of update-log entries (for `producer_site.get_list('Update Log', ...)`).
JSON serialisation (`json.loads` / `frappe.as_json`) is treated as the
identity: payloads are carried as structured documents throughout.

The storage collaborator (`frappe.db` / `Document.insert`) is not part of
the source tree; where its behaviour decides a claim it is modelled from
the spec (see `insert_doc`).  The recursive dependency resolution of the
source has no termination guard, so it is embedded with an explicit fuel
parameter; running out of fuel is reported as an error.
-/

set_option autoImplicit false

namespace EventProducer

/-- `update_type` values of an Update Log entry (`'Create' | 'Update' | 'Delete'`). -/
inductive UpdateType where
  | Create
  | Update
  | Delete
deriving DecidableEq, Repr

/-- A child-table row (child documents in frappe carry no nested child tables). -/
structure Row where
  doctype : String
  values : List (String × String)
deriving DecidableEq, Repr

/-- A document: its doctype, its local name (primary key), its scalar/link
field values, and its child-table rows keyed by the table fieldname.
The `name` field plays the role of the `name` key of the document dict;
payload merges therefore never touch it (`update.data.pop('name')`). -/
structure Doc where
  doctype : String
  name : String
  values : List (String × String)
  children : List (String × List Row)
deriving DecidableEq, Repr

/-- Look up a field value in an association list; an absent field reads as
the empty string (Python `doc.get` returning a falsy `None`). -/
def value_of (values : List (String × String)) (k : String) : String :=
  ((values.find? (fun p => p.1 == k)).map Prod.snd).getD ""

def Doc.getValue (d : Doc) (k : String) : String :=
  value_of d.values k

def Doc.getChildren (d : Doc) (k : String) : List Row :=
  ((d.children.find? (fun p => p.1 == k)).map Prod.snd).getD []

/-- A child-table row viewed as a document, as when the source passes a child
row to `set_dependencies`. -/
def rowToDoc (r : Row) : Doc :=
  { doctype := r.doctype, name := "", values := r.values, children := [] }

/-- A docfield carrying link information: for a link field `options` is the
linked doctype (`df.get_link_doctype()`); for a dynamic link field `options`
names the sibling field holding the doctype; for a table field `options` is
unused here (rows carry their own doctype). -/
structure LinkField where
  fieldname : String
  options : String
deriving DecidableEq, Repr

/-- Doctype metadata (`frappe.get_meta`): the three field lists the
dependency resolver consults. -/
structure Meta where
  table_fields : List LinkField
  link_fields : List LinkField
  dynamic_link_fields : List LinkField
deriving DecidableEq, Repr

/-- The local database: the stored documents plus a counter from which
system-generated names are drawn. -/
structure Database where
  docs : List Doc
  counter : Nat
deriving DecidableEq, Repr

/-- Errors: the exception taxonomy visible to this module.  `fuelOut`
reports exhaustion of the explicit recursion bound of the embedding. -/
inductive SyncError where
  | mappingError
  | missingData
  | linkValidation (doctype name : String)
  | duplicateEntry (doctype name : String)
  | docNotFound (doctype name : String)
  | fuelOut
deriving DecidableEq, Repr

/-- One fetched Update Log entry, enriched in `pull_from_node` with the
subscription's naming policy (`use_same_name`) and mapping name. -/
structure Update where
  update_type : UpdateType
  ref_doctype : String
  docname : String
  data : Option Doc
  name : String
  creation : Nat
  use_same_name : Bool := false
  mapping : Option String := none
deriving DecidableEq, Repr

/-- Modelled from the spec: a Document Type Mapping rule, declaring the
remote-to-local doctype correspondence and the field-correspondence table
(remote fieldname, local fieldname).  The Document Type Mapping doctype
itself is outside the provided sources. -/
structure DocumentTypeMapping where
  mapping_name : String
  local_doctype : String
  remote_doctype : String
  field_map : List (String × String)
deriving DecidableEq, Repr

/-- The static environment of one pull: doctype metadata, the producer
site's fetchable documents, the naming and mapping configuration derived
from the producer's event configuration (`get_config`), and the Event
Producer record's name. -/
structure Config where
  meta : String → Meta
  remote : List Doc
  naming_config : String → Bool
  mapping_config : String → Option String
  mapping_rules : String → Option DocumentTypeMapping
  producer : String

instance {ε α : Type} [DecidableEq ε] [DecidableEq α] : DecidableEq (Except ε α) := fun x y =>
  match x, y with
  | Except.ok a, Except.ok b =>
    if h : a = b then isTrue (by rw [h]) else isFalse (by intro hc; cases hc; exact h rfl)
  | Except.error a, Except.error b =>
    if h : a = b then isTrue (by rw [h]) else isFalse (by intro hc; cases hc; exact h rfl)
  | Except.ok _, Except.error _ => isFalse (by intro hc; cases hc)
  | Except.error _, Except.ok _ => isFalse (by intro hc; cases hc)

/-- `frappe.db.exists(linked_doctype, docname)`. -/
def check_dependency_fulfilled (db : Database) (linked_doctype docname : String) : Bool :=
  db.docs.any (fun d => d.doctype == linked_doctype && d.name == docname)

/-- `producer_site.get_doc(doctype, docname)` returning `none` when the
remote document does not exist (the client raises in that case). -/
def remote_get_doc (remote : List Doc) (doctype docname : String) : Option Doc :=
  remote.find? (fun d => d.doctype == doctype && d.name == docname)

/-- Link fulfilment of one value list against the database: every nonempty
link field value resolves, and every nonempty dynamic link value resolves
against the doctype named by its options field. -/
def links_ok (cfg : Config) (db : Database) (dt : String)
    (values : List (String × String)) : Bool :=
  ((cfg.meta dt).link_fields.all (fun df =>
      let v := value_of values df.fieldname
      v == "" || check_dependency_fulfilled db df.options v)) &&
  ((cfg.meta dt).dynamic_link_fields.all (fun df =>
      let v := value_of values df.fieldname
      let ldt := value_of values df.options
      v == "" || ldt == "" || check_dependency_fulfilled db ldt v))

/-- Modelled from the spec: the storage collaborator validates every link
(of the document and of each child row) before inserting — a dangling link
is the "insert itself fails" case the dependency resolver guards against. -/
def validate_doc_links (cfg : Config) (db : Database) (d : Doc) : Bool :=
  links_ok cfg db d.doctype d.values &&
  ((cfg.meta d.doctype).table_fields.all (fun tf =>
      (d.getChildren tf.fieldname).all (fun r => links_ok cfg db r.doctype r.values)))

/-- The identity a new record receives: the explicit identity when one is
given, a system-generated name drawn from the counter otherwise. -/
def insert_name (db : Database) (set_name : Option String) : String :=
  match set_name with
  | some n => n
  | none => "New-" ++ toString db.counter

/-- Modelled from the spec: `Document.insert` of the storage collaborator.
With `set_name = some n` the new record's identity is `n`; otherwise a
system-generated name is drawn from the counter.  It fails on a dangling
link or on an identity collision, and otherwise appends the record. -/
def insert_doc (cfg : Config) (db : Database) (doc : Doc) (set_name : Option String) :
    Except SyncError (Database × Doc) :=
  if !(validate_doc_links cfg db doc) then
    Except.error (SyncError.linkValidation doc.doctype doc.name)
  else if db.docs.any (fun d => d.doctype == doc.doctype && d.name == insert_name db set_name) then
    Except.error (SyncError.duplicateEntry doc.doctype (insert_name db set_name))
  else
    Except.ok ({ docs := db.docs ++ [{ doc with name := insert_name db set_name }],
                 counter := db.counter + 1 },
               { doc with name := insert_name db set_name })

/-- The work items of the dependency resolver: the bodies of
`check_doc_has_dependencies`, `sync_child_table_dependencies` (with its
inner row loop), `set_dependencies` and `sync_dynamic_link_dependencies`,
flattened into one fuel-indexed recursion. -/
inductive Job where
  | checkDoc (doc : Doc)
  | childTables (doc : Doc) (tfs : List LinkField)
  | childRows (entries : List Row)
  | linkDeps (doc : Doc) (lfs : List LinkField)
  | dynDeps (doc : Doc) (lfs : List LinkField)
deriving Repr

/-- The dependency resolver.  Each branch transcribes the corresponding
source function; exceptions thread the partially mutated database (the
source commits each dependency insert as it happens).

Fidelity notes on `Job.linkDeps`: the source's
`for df in link_fields: ... doc = frappe.get_doc(master_doc); doc.insert(...)`
rebinds the loop's `doc` to the fetched master, so the remaining link
fields are read from the master document — the recursion below continues
on `master` in both the ok and the error branch.  On insert failure the
source only recurses into `check_doc_has_dependencies(master_doc)`; it
does not retry the insert. -/
def run_dep (cfg : Config) : Nat → Database → Job → Database × Option SyncError
  | 0, db, _ => (db, some SyncError.fuelOut)
  | Nat.succ fuel, db, Job.checkDoc doc =>
      let m := cfg.meta doc.doctype
      match run_dep cfg fuel db (Job.childTables doc m.table_fields) with
      | (db1, some e) => (db1, some e)
      | (db1, none) =>
        match run_dep cfg fuel db1 (Job.linkDeps doc m.link_fields) with
        | (db2, some e) => (db2, some e)
        | (db2, none) => run_dep cfg fuel db2 (Job.dynDeps doc m.dynamic_link_fields)
  | Nat.succ _, db, Job.childTables _ [] => (db, none)
  | Nat.succ fuel, db, Job.childTables doc (tf :: rest) =>
      match run_dep cfg fuel db (Job.childRows (doc.getChildren tf.fieldname)) with
      | (db1, some e) => (db1, some e)
      | (db1, none) => run_dep cfg fuel db1 (Job.childTables doc rest)
  | Nat.succ _, db, Job.childRows [] => (db, none)
  | Nat.succ fuel, db, Job.childRows (entry :: rest) =>
      match run_dep cfg fuel db
          (Job.linkDeps (rowToDoc entry) (cfg.meta entry.doctype).link_fields) with
      | (db1, some e) => (db1, some e)
      | (db1, none) => run_dep cfg fuel db1 (Job.childRows rest)
  | Nat.succ _, db, Job.linkDeps _ [] => (db, none)
  | Nat.succ fuel, db, Job.linkDeps doc (df :: rest) =>
      if doc.getValue df.fieldname != "" &&
          !(check_dependency_fulfilled db df.options (doc.getValue df.fieldname)) then
        match remote_get_doc cfg.remote df.options (doc.getValue df.fieldname) with
        | none => (db, some (SyncError.docNotFound df.options (doc.getValue df.fieldname)))
        | some master =>
          match insert_doc cfg db master (some (doc.getValue df.fieldname)) with
          | Except.ok r => run_dep cfg fuel r.1 (Job.linkDeps master rest)
          | Except.error _ =>
            match run_dep cfg fuel db (Job.checkDoc master) with
            | (db1, some e) => (db1, some e)
            | (db1, none) => run_dep cfg fuel db1 (Job.linkDeps master rest)
      else run_dep cfg fuel db (Job.linkDeps doc rest)
  | Nat.succ _, db, Job.dynDeps _ [] => (db, none)
  | Nat.succ fuel, db, Job.dynDeps doc (df :: rest) =>
      if doc.getValue df.fieldname != "" &&
          !(check_dependency_fulfilled db (doc.getValue df.options) (doc.getValue df.fieldname)) then
        match remote_get_doc cfg.remote (doc.getValue df.options) (doc.getValue df.fieldname) with
        | none => (db, some (SyncError.docNotFound (doc.getValue df.options) (doc.getValue df.fieldname)))
        | some master =>
          match insert_doc cfg db master (some (doc.getValue df.fieldname)) with
          | Except.ok r => run_dep cfg fuel r.1 (Job.dynDeps doc rest)
          | Except.error e => (db, some e)
      else run_dep cfg fuel db (Job.dynDeps doc rest)

/-- `check_doc_has_dependencies(doc, producer_site)`. -/
def check_doc_has_dependencies (cfg : Config) (fuel : Nat) (db : Database) (doc : Doc) :
    Database × Option SyncError :=
  run_dep cfg fuel db (Job.checkDoc doc)

/-- `sync_child_table_dependencies(doc, table_fields, producer_site)`. -/
def sync_child_table_dependencies (cfg : Config) (fuel : Nat) (db : Database) (doc : Doc)
    (table_fields : List LinkField) : Database × Option SyncError :=
  run_dep cfg fuel db (Job.childTables doc table_fields)

/-- `sync_link_dependencies(doc, link_fields, producer_site)`, which just
forwards to `set_dependencies`. -/
def sync_link_dependencies (cfg : Config) (fuel : Nat) (db : Database) (doc : Doc)
    (link_fields : List LinkField) : Database × Option SyncError :=
  run_dep cfg fuel db (Job.linkDeps doc link_fields)

/-- `set_dependencies(doc, link_fields, producer_site)`. -/
def set_dependencies (cfg : Config) (fuel : Nat) (db : Database) (doc : Doc)
    (link_fields : List LinkField) : Database × Option SyncError :=
  run_dep cfg fuel db (Job.linkDeps doc link_fields)

/-- `sync_dynamic_link_dependencies(doc, dl_fields, producer_site)`. -/
def sync_dynamic_link_dependencies (cfg : Config) (fuel : Nat) (db : Database) (doc : Doc)
    (dl_fields : List LinkField) : Database × Option SyncError :=
  run_dep cfg fuel db (Job.dynDeps doc dl_fields)

/-- `get_local_doc(update)`: remote-identity lookup when the subscription
does not preserve the remote name, direct lookup otherwise; a missing
document yields `none` (the source catches `DoesNotExistError`). -/
def get_local_doc (db : Database) (u : Update) : Option Doc :=
  if !u.use_same_name then
    db.docs.find? (fun d => d.doctype == u.ref_doctype && d.getValue "remote_docname" == u.docname)
  else
    db.docs.find? (fun d => d.doctype == u.ref_doctype && d.name == u.docname)

/-- Python `dict.update`: keys of `upd` override `base` in place, new keys
are appended. -/
def assoc_update {α : Type} (base upd : List (String × α)) : List (String × α) :=
  base.map (fun kv =>
    match upd.find? (fun p => p.1 == kv.1) with
    | some p => (kv.1, p.2)
    | none => kv) ++
  upd.filter (fun p => !(base.any (fun kv => kv.1 == p.1)))

/-- `local_doc.update(update.data)`: merge the payload's fields (the
identity was stripped by `update.data.pop('name')`, which in this embedding
is the payload's `name` component never being merged). -/
def doc_update (d : Doc) (data : Doc) : Doc :=
  { d with values := assoc_update d.values data.values,
           children := assoc_update d.children data.children }

/-- `local_doc.db_update_all()` after a merge: persist the merged document
under its unchanged identity. -/
def replace_doc (db : Database) (dt nm : String) (newDoc : Doc) : Database :=
  { db with docs := db.docs.map (fun d => if d.doctype == dt && d.name == nm then newDoc else d) }

/-- `local_doc.delete()`: remove the record with that identity. -/
def remove_doc (db : Database) (dt nm : String) : Database :=
  { db with docs := db.docs.filter (fun d => !(d.doctype == dt && d.name == nm)) }

def set_value_list (values : List (String × String)) (k v : String) :
    List (String × String) :=
  if values.any (fun p => p.1 == k) then
    values.map (fun p => if p.1 == k then (k, v) else p)
  else values ++ [(k, v)]

def Doc.setValue (d : Doc) (k v : String) : Doc :=
  { d with values := set_value_list d.values k v }

/-- `frappe.db.set_value(doctype, name, field, value)`. -/
def set_doc_value (db : Database) (dt nm k v : String) : Database :=
  { db with docs := db.docs.map (fun d => if d.doctype == dt && d.name == nm then d.setValue k v else d) }

/-- `set_custom_fields(local_doc, remote_docname, remote_site_name)`. -/
def set_custom_fields (db : Database) (local_doc : Doc)
    (remote_docname remote_site_name : String) : Database :=
  set_doc_value (set_doc_value db local_doc.doctype local_doc.name "remote_docname" remote_docname)
    local_doc.doctype local_doc.name "remote_site_name" remote_site_name

/-- `set_insert(update, producer_site, event_producer)`.  The pre-existence
check is `frappe.db.get_value(update.ref_doctype, update.docname)` — a
lookup by local name, for either naming policy. -/
def set_insert (cfg : Config) (fuel : Nat) (db : Database) (u : Update)
    (event_producer : String) : Database × Option SyncError :=
  if db.docs.any (fun d => d.doctype == u.ref_doctype && d.name == u.docname) then
    (db, none)
  else
    match u.data with
    | none => (db, some SyncError.missingData)
    | some doc =>
      match check_doc_has_dependencies cfg fuel db doc with
      | (db1, some e) => (db1, some e)
      | (db1, none) =>
        if u.use_same_name then
          match insert_doc cfg db1 doc (some u.docname) with
          | Except.ok r => (r.1, none)
          | Except.error e => (db1, some e)
        else
          match insert_doc cfg db1 doc none with
          | Except.ok r => (set_custom_fields r.1 r.2 u.docname event_producer, none)
          | Except.error e => (db1, some e)

/-- `set_update(update, producer_site)`: resolve the local record, strip the
identity from the payload, resolve the existing record's dependencies, then
merge and persist.  A missing local record is a silent no-op. -/
def set_update (cfg : Config) (fuel : Nat) (db : Database) (u : Update) :
    Database × Option SyncError :=
  match get_local_doc db u with
  | none => (db, none)
  | some local_doc =>
    match u.data with
    | none => (db, some SyncError.missingData)
    | some data =>
      match check_doc_has_dependencies cfg fuel db local_doc with
      | (db1, some e) => (db1, some e)
      | (db1, none) =>
        let merged := doc_update local_doc data
        (replace_doc db1 local_doc.doctype local_doc.name merged, none)

/-- `set_delete(update)`: a missing local record is a silent no-op. -/
def set_delete (db : Database) (u : Update) : Database × Option SyncError :=
  match get_local_doc db u with
  | none => (db, none)
  | some local_doc => (remove_doc db local_doc.doctype local_doc.name, none)

/-- The body of `sync`'s try block: the three sequential `if` dispatches on
`update.update_type` (at most one fires). -/
def apply_update (cfg : Config) (fuel : Nat) (db : Database) (u : Update) :
    Database × Option SyncError :=
  match (if u.update_type = UpdateType.Create then
           set_insert cfg fuel db u cfg.producer
         else (db, none)) with
  | (db1, some e) => (db1, some e)
  | (db1, none) =>
    match (if u.update_type = UpdateType.Update then
             set_update cfg fuel db1 u
           else (db1, none)) with
    | (db2, some e) => (db2, some e)
    | (db2, none) =>
      if u.update_type = UpdateType.Delete then set_delete db2 u else (db2, none)

/-- One Event Sync Log record as produced by `log_event_sync`. -/
structure LogEntry where
  update_type : UpdateType
  ref_doctype : String
  status : String
  event_producer : String
  producer_doc : String
  data : Option Doc
  use_same_name : Bool
  mapping : Option String
  docname : Option String
  error : Option SyncError
deriving DecidableEq, Repr

/-- `log_event_sync(update, event_producer, sync_status, error)`.  With a
generated local name, `docname` is looked up through the `remote_docname`
custom field in the current database. -/
def log_event_sync (db : Database) (u : Update) (event_producer sync_status : String)
    (error : Option SyncError) : LogEntry :=
  { update_type := u.update_type
    ref_doctype := u.ref_doctype
    status := sync_status
    event_producer := event_producer
    producer_doc := u.docname
    data := u.data
    use_same_name := u.use_same_name
    mapping := u.mapping
    docname := if u.use_same_name then some u.docname
      else (db.docs.find? (fun d =>
        d.doctype == u.ref_doctype && d.getValue "remote_docname" == u.docname)).map Doc.name
    error := error }

/-- The consumer-side mutable state of one Event Producer: the local
database, the Event Sync Log, and the producer record's `last_update`
cursor. -/
structure SyncState where
  db : Database
  logs : List LogEntry
  last_update : String
deriving DecidableEq, Repr

/-- `sync(update, producer_site, event_producer, in_retry)`.  Per-record
exceptions from the apply are caught here; in a retry run the verdict is
returned before any logging or cursor write; in a normal run the outcome is
logged and `last_update` is advanced to the update's name in both the
success and the failure branch. -/
def sync (cfg : Config) (fuel : Nat) (st : SyncState) (u : Update) (in_retry : Bool) :
    SyncState × Option String :=
  match apply_update cfg fuel st.db u with
  | (db, none) =>
    if in_retry then ({ st with db := db }, some "Synced")
    else
      ({ db := db
         logs := st.logs ++ [log_event_sync db u cfg.producer "Synced" none]
         last_update := u.name }, none)
  | (db, some e) =>
    if in_retry then ({ st with db := db }, some "Failed")
    else
      ({ db := db
         logs := st.logs ++ [log_event_sync db u cfg.producer "Failed" (some e)]
         last_update := u.name }, none)

/-- `get_updates(producer_site, last_update, doctypes)`: read the cursor
entry's creation timestamp, filter the remote Update Log by subscribed
doctype (and by strictly newer creation when the cursor resolves), then
reverse the list the producer returned. -/
def get_updates (producer_log : List Update) (last_update : String)
    (doctypes : List String) : List Update :=
  let last_update_timestamp :=
    (producer_log.find? (fun e => e.name == last_update)).map Update.creation
  let filtered := producer_log.filter (fun e =>
    doctypes.contains e.ref_doctype &&
    (match last_update_timestamp with
     | some t => decide (t < e.creation)
     | none => true))
  filtered.reverse

/-- The filter predicate of `get_updates`, named for the statements below. -/
def update_filter (producer_log : List Update) (last_update : String)
    (doctypes : List String) (e : Update) : Bool :=
  doctypes.contains e.ref_doctype &&
  (match (producer_log.find? (fun x => x.name == last_update)).map Update.creation with
   | some t => decide (t < e.creation)
   | none => true)

/-- `get_mapped_update(update)` given the fetched mapping rule: transform
the payload (except for deletes) and rewrite the reference doctype to the
rule's local doctype. -/
def get_mapped_doc (m : DocumentTypeMapping) (d : Doc) : Except SyncError Doc :=
  if m.field_map.all (fun p => d.values.any (fun kv => kv.1 == p.1)) then
    let vs := m.field_map.filterMap (fun p =>
      match d.values.find? (fun kv => kv.1 == p.1) with
      | some kv => some (p.2, kv.2)
      | none => none)
    Except.ok { d with doctype := m.local_doctype, values := vs }
  else Except.error SyncError.mappingError

/-- `get_mapped_update(update)`: transform the payload unless the update is
a delete, then rewrite `ref_doctype` to the rule's local doctype (here the
rewrite is distributed into the branches of the payload transform). -/
def get_mapped_update (m : DocumentTypeMapping) (u : Update) : Except SyncError Update :=
  if u.update_type ≠ UpdateType.Delete then
    match u.data with
    | none => Except.error SyncError.missingData
    | some d =>
      match get_mapped_doc m d with
      | Except.ok d1 => Except.ok { u with data := some d1, ref_doctype := m.local_doctype }
      | Except.error e => Except.error e
  else Except.ok { u with ref_doctype := m.local_doctype }

/-- The body of `pull_from_node`'s per-update loop: stamp the naming
policy, apply the configured mapping (errors here are not caught — they
abort the pull), then drive the update through `sync` in normal mode. -/
def pull_one (cfg : Config) (fuel : Nat) (st : SyncState) (u : Update) :
    SyncState × Option SyncError :=
  match cfg.mapping_config u.ref_doctype with
  | some mname =>
    match cfg.mapping_rules mname with
    | none => (st, some (SyncError.docNotFound "Document Type Mapping" mname))
    | some m =>
      match get_mapped_update m
          { u with use_same_name := cfg.naming_config u.ref_doctype,
                   mapping := some mname } with
      | Except.error e => (st, some e)
      | Except.ok u3 => ((sync cfg fuel st u3 false).1, none)
  | none => ((sync cfg fuel st { u with use_same_name := cfg.naming_config u.ref_doctype } false).1, none)

/-- The per-update loop of `pull_from_node`: a mapping failure aborts the
remainder of the batch, carrying the state reached so far. -/
def pull_updates (cfg : Config) (fuel : Nat) :
    SyncState → List Update → SyncState × Option SyncError
  | st, [] => (st, none)
  | st, u :: rest =>
    match pull_one cfg fuel st u with
    | (st1, none) => pull_updates cfg fuel st1 rest
    | (st1, some e) => (st1, some e)

/-- `pull_from_node(event_producer)`: fetch the filtered, reversed batch
from the cursor position and process it in order. -/
def pull_from_node (cfg : Config) (fuel : Nat) (st : SyncState)
    (producer_log : List Update) (doctypes : List String) : SyncState × Option SyncError :=
  pull_updates cfg fuel st (get_updates producer_log st.last_update doctypes)

/-- `resync(update)`: re-apply the mapping when the logged update had one
(errors propagate to the caller), then re-drive the update through `sync`
with `in_retry=True` and hand back its verdict. -/
def resync (cfg : Config) (fuel : Nat) (st : SyncState) (u : Update) :
    Except SyncError (SyncState × Option String) :=
  match u.mapping with
  | some mname =>
    match cfg.mapping_rules mname with
    | none => Except.error (SyncError.docNotFound "Document Type Mapping" mname)
    | some m =>
      match get_mapped_update m u with
      | Except.error e => Except.error e
      | Except.ok u1 => Except.ok (sync cfg fuel st u1 true)
  | none => Except.ok (sync cfg fuel st u true)

/-! Concrete instances used by the witnesses and counterexamples below. -/

/-- A finite metadata table as a doctype-indexed function. -/
def exMeta (l : List (String × Meta)) : String → Meta :=
  fun dt => ((l.find? (fun p => p.1 == dt)).map Prod.snd).getD ⟨[], [], []⟩

/-- A configuration assembled from finite tables. -/
def exConfig (metaTable : List (String × Meta)) (remote : List Doc)
    (naming : List (String × Bool)) (mapcfg : List (String × String))
    (rules : List DocumentTypeMapping) : Config :=
  { meta := exMeta metaTable
    remote := remote
    naming_config := fun dt => ((naming.find? (fun p => p.1 == dt)).map Prod.snd).getD false
    mapping_config := fun dt => (mapcfg.find? (fun p => p.1 == dt)).map Prod.snd
    mapping_rules := fun n => rules.find? (fun m => m.mapping_name == n)
    producer := "producer-1" }

def emptyDb : Database := { docs := [], counter := 0 }

def emptyState : SyncState := { db := emptyDb, logs := [], last_update := "" }

def cfgPlain : Config := exConfig [] [] [("DT", true)] [] []

def docT1 : Doc := { doctype := "DT", name := "T-1", values := [("title", "x")], children := [] }

def updCreateT1 : Update :=
  { update_type := UpdateType.Create, ref_doctype := "DT", docname := "T-1",
    data := some docT1, name := "UL-1", creation := 1, use_same_name := true }

def updUpdateT1 : Update :=
  { update_type := UpdateType.Update, ref_doctype := "DT", docname := "T-1",
    data := some docT1, name := "UL-2", creation := 2, use_same_name := true }

def updDeleteT1 : Update :=
  { update_type := UpdateType.Delete, ref_doctype := "DT", docname := "T-1",
    data := none, name := "UL-3", creation := 3, use_same_name := true }

def updLogNew : Update :=
  { update_type := UpdateType.Create, ref_doctype := "DT", docname := "T-2",
    data := some { doctype := "DT", name := "T-2", values := [], children := [] },
    name := "UL-9", creation := 9 }

def updLogOld : Update :=
  { update_type := UpdateType.Create, ref_doctype := "DT", docname := "T-1",
    data := some { doctype := "DT", name := "T-1", values := [], children := [] },
    name := "UL-8", creation := 8 }

/-- A dynamic-link failure scenario: record R carries a dynamic link
(`party`, of the doctype named by `party_type`) to remote Customer C-1,
whose own group link is dangling, so inserting C-1 fails. -/
def cfgDyn : Config :=
  exConfig
    [("R", ⟨[], [], [⟨"party", "party_type"⟩]⟩),
     ("Customer", ⟨[], [⟨"grp", "Group"⟩], []⟩)]
    [{ doctype := "Customer", name := "C-1", values := [("grp", "G-1")], children := [] }]
    [] [] []

def docDyn : Doc :=
  { doctype := "R", name := "R-1",
    values := [("party", "C-1"), ("party_type", "Customer")], children := [] }

/-- A mapping rule whose field map references a source field absent from
the payload, so that transforming a matching update raises a MappingError
inside `pull_from_node`'s loop — outside `sync`'s try/except. -/
def ruleBroken : DocumentTypeMapping :=
  { mapping_name := "M-1", local_doctype := "LDT", remote_doctype := "RDT",
    field_map := [("missing", "x")] }

def cfgMapFail : Config :=
  exConfig [] [] [("RDT", true), ("Other", true)] [("RDT", "M-1")] [ruleBroken]

def updMapped : Update :=
  { update_type := UpdateType.Create, ref_doctype := "RDT", docname := "A-1",
    data := some { doctype := "RDT", name := "A-1", values := [("title", "x")], children := [] },
    name := "UL-1", creation := 1 }

def updPlain2 : Update :=
  { update_type := UpdateType.Create, ref_doctype := "Other", docname := "B-1",
    data := some { doctype := "Other", name := "B-1", values := [], children := [] },
    name := "UL-2", creation := 2 }

/-- A logged change as `log_event_sync` stores it: the payload is the
already-mapped data (field `x`, the rule's target field), and the rule name
is recorded on the update.  Re-driving it through `resync` re-applies the
rule to this mapped payload, whose source field `missing` is absent. -/
def updMappedLogged : Update :=
  { update_type := UpdateType.Create, ref_doctype := "LDT", docname := "A-1",
    data := some { doctype := "LDT", name := "A-1", values := [("x", "v")], children := [] },
    name := "UL-1", creation := 1, use_same_name := true, mapping := some "M-1" }

/-- Dependency-of-dependency scenario: local record R links to D-1 (of
doctype D); the remote D-1 in turn links to E-1 (of doctype E); nothing
exists locally, so inserting the fetched D-1 fails on its dangling link. -/
def cfgDep : Config :=
  exConfig
    [("R", ⟨[], [⟨"d", "D"⟩], []⟩), ("D", ⟨[], [⟨"e", "E"⟩], []⟩)]
    [{ doctype := "D", name := "D-1", values := [("e", "E-1")], children := [] },
     { doctype := "E", name := "E-1", values := [], children := [] }]
    [] [] []

def docDep : Doc :=
  { doctype := "R", name := "R-1", values := [("d", "D-1")], children := [] }

def masterD : Doc :=
  { doctype := "D", name := "D-1", values := [("e", "E-1")], children := [] }

/-- A document that is some remote document re-identified under its source
name: the only kind of record the dependency resolver ever inserts. -/
def remote_named (cfg : Config) (d : Doc) : Prop :=
  ∃ dt nm m, remote_get_doc cfg.remote dt nm = some m ∧ d = { m with name := nm }

/-- `db'` extends `db` by appended records that all come from the remote
under their source identity. -/
def ext_by (cfg : Config) (db db' : Database) : Prop :=
  ∃ ext, db'.docs = db.docs ++ ext ∧ ∀ d ∈ ext, remote_named cfg d

/-- The Task/Project scenario of the spec: a Task links to Project P-1,
which only exists on the producer site. -/
def cfgTask : Config :=
  exConfig [("Task", ⟨[], [⟨"project", "Project"⟩], []⟩)]
    [{ doctype := "Project", name := "P-1", values := [], children := [] }]
    [("Task", true)] [] []

def docTask : Doc :=
  { doctype := "Task", name := "T-1", values := [("project", "P-1")], children := [] }

def updTask : Update :=
  { update_type := UpdateType.Create, ref_doctype := "Task", docname := "T-1",
    data := some docTask, name := "UL-T", creation := 5, use_same_name := true }

/-- A Create under a generated local name (`preserveRemoteName = false`). -/
def cfgGen : Config := exConfig [] [] [] [] []

def docGen : Doc :=
  { doctype := "DT", name := "R-1", values := [("title", "x")], children := [] }

def updCreateGen : Update :=
  { update_type := UpdateType.Create, ref_doctype := "DT", docname := "R-1",
    data := some docGen, name := "UL-G", creation := 1, use_same_name := false }

def dbOne : Database := { docs := [docT1], counter := 0 }

/-! Helper lemmas. -/

/-- A retry run of `sync` returns the verdict matching the apply outcome and
performs neither logging nor a cursor write. -/
theorem sync_retry_eq (cfg : Config) (fuel : Nat) (st : SyncState) (u : Update) :
    sync cfg fuel st u true =
      ({ st with db := (apply_update cfg fuel st.db u).1 },
       some (if (apply_update cfg fuel st.db u).2 = none then "Synced" else "Failed")) := by
  unfold sync
  rcases h : apply_update cfg fuel st.db u with ⟨db, e⟩
  cases e <;> simp [h]

/-- A normal run of `sync` always leaves the cursor at the processed
update's name. -/
theorem sync_nonretry_last_update (cfg : Config) (fuel : Nat) (st : SyncState) (u : Update) :
    ((sync cfg fuel st u false).1).last_update = u.name := by
  unfold sync
  rcases h : apply_update cfg fuel st.db u with ⟨db, e⟩
  cases e <;> simp [h]

/-- Mapping an update does not change its update-log identifier. -/
theorem get_mapped_update_name (m : DocumentTypeMapping) (u u1 : Update)
    (h : get_mapped_update m u = Except.ok u1) : u1.name = u.name := by
  unfold get_mapped_update at h
  split at h
  · split at h
    · cases h
    · split at h
      · cases h; rfl
      · cases h
  · cases h; rfl

/-- A per-update loop step that does not abort leaves the cursor at that
update's name. -/
theorem pull_one_cursor (cfg : Config) (fuel : Nat) (st : SyncState) (u : Update)
    (h : (pull_one cfg fuel st u).2 = none) :
    ((pull_one cfg fuel st u).1).last_update = u.name := by
  unfold pull_one at h ⊢
  split at h
  · rename_i mname heq
    split at h
    · simp at h
    · rename_i m heq2
      split at h
      · simp at h
      · rename_i u3 heq3
        have hn := get_mapped_update_name m _ u3 heq3
        simp only [heq, heq2, heq3]
        simpa [hn] using sync_nonretry_last_update cfg fuel st u3
  · rename_i heq
    simp only [heq]
    simpa using sync_nonretry_last_update cfg fuel st
      { u with use_same_name := cfg.naming_config u.ref_doctype }

/-- After a batch that did not abort, the cursor sits at the name of the
last update of the batch. -/
theorem pull_updates_cursor (cfg : Config) (fuel : Nat) :
    ∀ (updates : List Update) (st st1 : SyncState) (u1 : Update),
      pull_updates cfg fuel st updates = (st1, none) →
      updates.getLast? = some u1 → st1.last_update = u1.name := by
  intro updates
  induction updates with
  | nil => intro st st1 u1 h hl; simp at hl
  | cons u rest ih =>
    intro st st1 u1 h hl
    rw [pull_updates] at h
    rcases hp : pull_one cfg fuel st u with ⟨st2, e2⟩
    rw [hp] at h
    cases e2 with
    | some e => cases h
    | none =>
      cases rest with
      | nil =>
        simp only [pull_updates] at h
        cases h
        simp only [List.getLast?_singleton, Option.some.injEq] at hl
        subst hl
        have := pull_one_cursor cfg fuel st u (by rw [hp])
        rw [hp] at this
        exact this
      | cons v vs =>
        exact ih st2 st1 u1 h (by simpa using hl)

/-- C2: in a normal (non-retry) run, `sync` sets `last_update` to the
processed update's identifier whether the apply succeeded or failed, and a
batch that completed leaves the cursor at the identifier of the last
update attempted. -/
theorem sync_advances_cursor (cfg : Config) (fuel : Nat) (st : SyncState) (u : Update) :
    ((sync cfg fuel st u false).1).last_update = u.name ∧
    (∀ (updates : List Update) (st1 : SyncState) (u1 : Update),
      pull_updates cfg fuel st updates = (st1, none) →
      updates.getLast? = some u1 → st1.last_update = u1.name) :=
  ⟨sync_nonretry_last_update cfg fuel st u,
   fun updates st1 u1 h hl => pull_updates_cursor cfg fuel updates st st1 u1 h hl⟩

theorem sync_advances_cursor_witness :
    ((sync cfgPlain 10 emptyState updCreateT1 false).1).last_update = updCreateT1.name ∧
    ((pull_updates cfgPlain 10 emptyState [updCreateT1, updDeleteT1]).1).last_update =
      updDeleteT1.name :=
  ⟨(sync_advances_cursor cfgPlain 10 emptyState updCreateT1).1,
   (sync_advances_cursor cfgPlain 10 emptyState updCreateT1).2
     [updCreateT1, updDeleteT1]
     (pull_updates cfgPlain 10 emptyState [updCreateT1, updDeleteT1]).1 updDeleteT1
     (by decide) (by decide)⟩

/-- C7: an Update or Delete whose target is not found locally (by either
naming policy's lookup) is a silent no-op: no error, storage unchanged. -/
theorem missing_target_update_delete_noop (cfg : Config) (fuel : Nat) (db : Database)
    (u : Update) (h : get_local_doc db u = none) :
    set_update cfg fuel db u = (db, none) ∧ set_delete db u = (db, none) ∧
    (u.update_type = UpdateType.Update ∨ u.update_type = UpdateType.Delete →
      apply_update cfg fuel db u = (db, none)) := by
  have h1 : set_update cfg fuel db u = (db, none) := by unfold set_update; rw [h]
  have h2 : set_delete db u = (db, none) := by unfold set_delete; rw [h]
  refine ⟨h1, h2, ?_⟩
  rintro (ht | ht) <;> (unfold apply_update; simp [ht, h1, h2])

theorem missing_target_update_delete_noop_witness :
    set_update cfgPlain 10 emptyDb updUpdateT1 = (emptyDb, none) ∧
    set_delete emptyDb updDeleteT1 = (emptyDb, none) ∧
    apply_update cfgPlain 10 emptyDb updUpdateT1 = (emptyDb, none) :=
  ⟨(missing_target_update_delete_noop cfgPlain 10 emptyDb updUpdateT1 (by decide)).1,
   (missing_target_update_delete_noop cfgPlain 10 emptyDb updDeleteT1 (by decide)).2.1,
   (missing_target_update_delete_noop cfgPlain 10 emptyDb updUpdateT1 (by decide)).2.2
     (Or.inl rfl)⟩

/-- Any successful `resync` run went through a retry `sync` and therefore
leaves log and cursor untouched and returns one of the two verdicts. -/
theorem resync_sync_form (cfg : Config) (fuel : Nat) (st : SyncState) (u : Update)
    (st1 : SyncState) (r : Option String) (h : resync cfg fuel st u = Except.ok (st1, r)) :
    st1.logs = st.logs ∧ st1.last_update = st.last_update ∧
    (r = some "Synced" ∨ r = some "Failed") := by
  have key : ∀ (u1 : Update), sync cfg fuel st u1 true = (st1, r) →
      st1.logs = st.logs ∧ st1.last_update = st.last_update ∧
      (r = some "Synced" ∨ r = some "Failed") := by
    intro u1 hs
    rw [sync_retry_eq] at hs
    have h1 : ({ st with db := (apply_update cfg fuel st.db u1).1 } : SyncState) = st1 :=
      congrArg Prod.fst hs
    have h2 : some (if (apply_update cfg fuel st.db u1).2 = none then "Synced" else "Failed") = r :=
      congrArg Prod.snd hs
    subst h1
    subst h2
    refine ⟨rfl, rfl, ?_⟩
    by_cases hc : (apply_update cfg fuel st.db u1).2 = none <;> simp [hc]
  unfold resync at h
  split at h
  · split at h
    · cases h
    · split at h
      · cases h
      · rename_i u1 heq3
        injection h with h1
        exact key u1 h1
  · injection h with h1
    exact key u h1

/-- `resync` of an unmapped update: the retry verdict of applying it,
with state and logs untouched apart from the apply's effect. -/
theorem resync_nomap_eq (cfg : Config) (fuel : Nat) (st : SyncState) (u : Update)
    (hm : u.mapping = none) :
    resync cfg fuel st u =
      Except.ok ({ st with db := (apply_update cfg fuel st.db u).1 },
        some (if (apply_update cfg fuel st.db u).2 = none then "Synced" else "Failed")) := by
  unfold resync
  rw [hm, sync_retry_eq]

/-- C8 counterexample: `resync` does not always return a verdict.  Its
mapping re-application runs outside any try/except, and the logged update
carries the already-mapped payload, so re-mapping it raises a MappingError
which propagates out of `resync` instead of yielding `Synced` or
`Failed`. -/
theorem resync_mapping_failure_no_verdict :
    resync cfgMapFail 10 emptyState updMappedLogged =
      Except.error SyncError.mappingError := by
  decide

/-- C8 amended: `resync` re-drives the logged update through the same
mapping-then-apply path in retry mode and writes no new Event Sync Log
entry; whenever it returns, the verdict is exactly `Synced` or `Failed` —
unconditionally so for updates without a configured mapping — but the
mapping re-application in `resync` is outside any try/except, so when it
raises, the exception propagates and no verdict is returned. -/
theorem resync_verdict_or_mapping_error (cfg : Config) (fuel : Nat) (st : SyncState)
    (u : Update) :
    (∀ (st1 : SyncState) (r : Option String),
      resync cfg fuel st u = Except.ok (st1, r) →
      (r = some "Synced" ∨ r = some "Failed") ∧ st1.logs = st.logs) ∧
    (u.mapping = none →
      resync cfg fuel st u =
        Except.ok ({ st with db := (apply_update cfg fuel st.db u).1 },
          some (if (apply_update cfg fuel st.db u).2 = none then "Synced" else "Failed"))) ∧
    (∀ (mname : String) (m : DocumentTypeMapping) (e : SyncError),
      u.mapping = some mname → cfg.mapping_rules mname = some m →
      get_mapped_update m u = Except.error e →
      resync cfg fuel st u = Except.error e) := by
  refine ⟨?_, ?_, ?_⟩
  · intro st1 r h
    have := resync_sync_form cfg fuel st u st1 r h
    exact ⟨this.2.2, this.1⟩
  · intro hm
    exact resync_nomap_eq cfg fuel st u hm
  · intro mname m e hm hr hg
    simp only [resync, hm, hr, hg]

theorem resync_verdict_or_mapping_error_witness :
    ((some "Synced" = some "Synced" ∨ (some "Synced" : Option String) = some "Failed") ∧
      (emptyState.logs : List LogEntry) = emptyState.logs) ∧
    resync cfgPlain 10 emptyState updCreateT1 =
      Except.ok ({ emptyState with db := (apply_update cfgPlain 10 emptyState.db updCreateT1).1 },
        some (if (apply_update cfgPlain 10 emptyState.db updCreateT1).2 = none
              then "Synced" else "Failed")) ∧
    resync cfgMapFail 10 emptyState updMappedLogged =
      Except.error SyncError.mappingError := by
  refine ⟨?_,
    (resync_verdict_or_mapping_error cfgPlain 10 emptyState updCreateT1).2.1 rfl, ?_⟩
  · refine (resync_verdict_or_mapping_error cfgPlain 10 emptyState updCreateT1).1
      { emptyState with db := (apply_update cfgPlain 10 emptyState.db updCreateT1).1 }
      (some "Synced") ?_
    rw [resync_nomap_eq cfgPlain 10 emptyState updCreateT1 rfl]
    have hc : (apply_update cfgPlain 10 emptyState.db updCreateT1).2 = none := by decide
    simp [hc]
  · exact (resync_verdict_or_mapping_error cfgMapFail 10 emptyState updMappedLogged).2.2
      "M-1" ruleBroken SyncError.mappingError rfl (by decide) (by decide)

/-- C9: a retry run (`resync` / `sync` with `in_retry=True`) never writes
the cursor, while a normal run advances it. -/
theorem resync_preserves_cursor (cfg : Config) (fuel : Nat) (st : SyncState) (u : Update) :
    (∀ (st1 : SyncState) (r : Option String),
      resync cfg fuel st u = Except.ok (st1, r) → st1.last_update = st.last_update) ∧
    ((sync cfg fuel st u true).1).last_update = st.last_update ∧
    ((sync cfg fuel st u false).1).last_update = u.name := by
  refine ⟨fun st1 r h => (resync_sync_form cfg fuel st u st1 r h).2.1, ?_, ?_⟩
  · rw [sync_retry_eq]
  · exact sync_nonretry_last_update cfg fuel st u

theorem resync_preserves_cursor_witness :
    (({ emptyState with db := (apply_update cfgPlain 10 emptyState.db updCreateT1).1 } :
        SyncState).last_update = emptyState.last_update) ∧
    ((sync cfgPlain 10 emptyState updCreateT1 true).1).last_update = emptyState.last_update :=
  ⟨(resync_preserves_cursor cfgPlain 10 emptyState updCreateT1).1
      { emptyState with db := (apply_update cfgPlain 10 emptyState.db updCreateT1).1 }
      (some (if (apply_update cfgPlain 10 emptyState.db updCreateT1).2 = none
             then "Synced" else "Failed"))
      (resync_nomap_eq cfgPlain 10 emptyState updCreateT1 rfl),
   (resync_preserves_cursor cfgPlain 10 emptyState updCreateT1).2.1⟩

/-- C6: `get_updates` returns the remote Update Log entries reversed from
the order the remote returned them; when the remote returns them
newest-first, the resulting batch is oldest-first, so an entry with an
earlier source timestamp sits at an earlier position than any entry with a
later one. -/
theorem get_updates_oldest_first (log : List Update) (lu : String) (dts : List String)
    (h : log.Pairwise (fun a b => b.creation ≤ a.creation)) :
    get_updates log lu dts = (log.filter (update_filter log lu dts)).reverse ∧
    ∀ (i j : Nat) (hi : i < (get_updates log lu dts).length)
      (hj : j < (get_updates log lu dts).length),
      ((get_updates log lu dts)[i]).creation < ((get_updates log lu dts)[j]).creation →
      i < j := by
  have heq : get_updates log lu dts = (log.filter (update_filter log lu dts)).reverse := rfl
  refine ⟨heq, ?_⟩
  have hp : (get_updates log lu dts).Pairwise (fun a b => a.creation ≤ b.creation) := by
    rw [heq, List.pairwise_reverse]
    exact List.Pairwise.sublist (List.filter_sublist log) h
  rw [List.pairwise_iff_getElem] at hp
  intro i j hi hj hlt
  by_contra hij
  rcases Nat.lt_or_ge j i with hji | hji
  · exact absurd hlt (not_lt.2 (hp j i hj hi hji))
  · have : i = j := Nat.le_antisymm hji (Nat.le_of_not_lt hij)
    subst this
    exact lt_irrefl _ hlt

theorem get_updates_oldest_first_witness :
    [updLogNew, updLogOld].Pairwise (fun a b => b.creation ≤ a.creation) ∧
    get_updates [updLogNew, updLogOld] "" ["DT"] =
      ([updLogNew, updLogOld].filter (update_filter [updLogNew, updLogOld] "" ["DT"])).reverse ∧
    (0 : Nat) < 1 :=
  ⟨by decide,
   (get_updates_oldest_first [updLogNew, updLogOld] "" ["DT"] (by decide)).1,
   (get_updates_oldest_first [updLogNew, updLogOld] "" ["DT"] (by decide)).2 0 1
     (by decide) (by decide) (by decide)⟩

/-- C10: in `sync_dynamic_link_dependencies` a failing insert of the
fetched master record is not caught: the database is left as it was, no
recursive resolution of the master's own dependencies happens, and the
error propagates; a dependency-resolution error in turn makes the
dependent record's `set_insert` fail with that error. -/
theorem dynamic_link_failure_propagates (cfg : Config) (fuel : Nat) (db : Database)
    (doc master : Doc) (df : LinkField) (rest : List LinkField) (e : SyncError)
    (hval : doc.getValue df.fieldname ≠ "")
    (hnf : check_dependency_fulfilled db (doc.getValue df.options) (doc.getValue df.fieldname) = false)
    (hfetch : remote_get_doc cfg.remote (doc.getValue df.options) (doc.getValue df.fieldname) = some master)
    (hins : insert_doc cfg db master (some (doc.getValue df.fieldname)) = Except.error e) :
    sync_dynamic_link_dependencies cfg (fuel + 1) db doc (df :: rest) = (db, some e) ∧
    (∀ (fl : Nat) (db2 db3 : Database) (u : Update) (d2 : Doc) (e1 : SyncError),
      db2.docs.any (fun d => d.doctype == u.ref_doctype && d.name == u.docname) = false →
      u.data = some d2 →
      check_doc_has_dependencies cfg fl db2 d2 = (db3, some e1) →
      set_insert cfg fl db2 u cfg.producer = (db3, some e1)) := by
  constructor
  · have hval2 : (doc.getValue df.fieldname != "") = true := bne_iff_ne.2 hval
    unfold sync_dynamic_link_dependencies
    rw [run_dep]
    simp [hval2, hnf, hfetch, hins]
  · intro fl db2 db3 u d2 e1 hpre hd hchk
    unfold set_insert
    simp [hpre, hd, hchk]

theorem dynamic_link_failure_propagates_witness :
    sync_dynamic_link_dependencies cfgDyn 20 emptyDb docDyn [⟨"party", "party_type"⟩] =
      (emptyDb, some (SyncError.linkValidation "Customer" "C-1")) :=
  (dynamic_link_failure_propagates cfgDyn 19 emptyDb docDyn
    { doctype := "Customer", name := "C-1", values := [("grp", "G-1")], children := [] }
    ⟨"party", "party_type"⟩ [] (SyncError.linkValidation "Customer" "C-1")
    (by decide) (by decide) (by decide) (by decide)).1

/-- C1 counterexample: a MappingError raised while transforming the first
update's payload is not caught by the per-record handler — it aborts the
batch: no Failed Event Sync Log entry is written for the record, the
second update is never applied (the database stays empty), and the cursor
does not advance. -/
theorem mapping_failure_aborts_batch :
    (pull_updates cfgMapFail 20 emptyState [updMapped, updPlain2]).2 =
      some SyncError.mappingError ∧
    ((pull_updates cfgMapFail 20 emptyState [updMapped, updPlain2]).1).logs = [] ∧
    ((pull_updates cfgMapFail 20 emptyState [updMapped, updPlain2]).1).db.docs = [] ∧
    ((pull_updates cfgMapFail 20 emptyState [updMapped, updPlain2]).1).last_update = "" := by
  decide

/-- C1 amended: failures raised while applying a change (inside `sync`'s
try block) are caught per record, logged as a Failed entry with the error
detail, and the loop continues with the next update; only failures raised
while transforming the update in `pull_from_node` (such as a MappingError)
escape and abort the batch. -/
theorem apply_failures_logged_batch_continues (cfg : Config) (fuel : Nat) (st : SyncState)
    (u : Update) (rest : List Update)
    (hnomap : cfg.mapping_config u.ref_doctype = none) :
    pull_updates cfg fuel st (u :: rest) =
      pull_updates cfg fuel
        ((sync cfg fuel st { u with use_same_name := cfg.naming_config u.ref_doctype } false).1)
        rest ∧
    (∀ (u1 : Update) (e : SyncError) (db1 : Database),
      apply_update cfg fuel st.db u1 = (db1, some e) →
      sync cfg fuel st u1 false =
        ({ db := db1,
           logs := st.logs ++ [log_event_sync db1 u1 cfg.producer "Failed" (some e)],
           last_update := u1.name }, none)) := by
  constructor
  · simp only [pull_updates, pull_one, hnomap]
  · intro u1 e db1 happ
    unfold sync
    simp [happ]

def cfgFailLog : Config := exConfig [] [] [("DT", true), ("E", true)] [] []

def updNoData : Update :=
  { update_type := UpdateType.Create, ref_doctype := "E", docname := "E-1",
    data := none, name := "UL-4", creation := 4, use_same_name := true }

theorem apply_failures_logged_batch_continues_witness :
    pull_updates cfgFailLog 10 emptyState [updNoData, updCreateT1] =
      pull_updates cfgFailLog 10
        ((sync cfgFailLog 10 emptyState
          { updNoData with use_same_name := cfgFailLog.naming_config updNoData.ref_doctype }
          false).1)
        [updCreateT1] ∧
    sync cfgFailLog 10 emptyState updNoData false =
      ({ db := emptyDb,
         logs := emptyState.logs ++
           [log_event_sync emptyDb updNoData cfgFailLog.producer "Failed"
             (some SyncError.missingData)],
         last_update := updNoData.name }, none) :=
  ⟨(apply_failures_logged_batch_continues cfgFailLog 10 emptyState updNoData
      [updCreateT1] (by decide)).1,
   (apply_failures_logged_batch_continues cfgFailLog 10 emptyState updNoData
      [updCreateT1] (by decide)).2 updNoData SyncError.missingData emptyDb (by decide)⟩

/-- C4 counterexample: the failed insert of the fetched dependency D-1
triggers recursive resolution (E-1 does get inserted), but the insert of
D-1 is never retried: `set_dependencies` returns successfully while D-1 is
still absent locally. -/
theorem dependency_insert_not_retried :
    (set_dependencies cfgDep 20 emptyDb docDep [⟨"d", "D"⟩]).2 = none ∧
    check_dependency_fulfilled
      (set_dependencies cfgDep 20 emptyDb docDep [⟨"d", "D"⟩]).1 "E" "E-1" = true ∧
    check_dependency_fulfilled
      (set_dependencies cfgDep 20 emptyDb docDep [⟨"d", "D"⟩]).1 "D" "D-1" = false := by
  decide

/-- C4 amended: when inserting a fetched direct-link dependency fails, the
resolver applies the same dependency-resolution algorithm recursively to
the fetched document and then continues with the remaining link fields
(read from the fetched document) without retrying the insert; in
particular, when the recursion succeeds and no link fields remain, the
call returns successfully with exactly the recursion's database — the
dependency itself has not been inserted by this step. -/
theorem set_dependencies_recursion_no_retry (cfg : Config) (fuel : Nat) (db : Database)
    (doc master : Doc) (df : LinkField) (rest : List LinkField) (e : SyncError)
    (hval : doc.getValue df.fieldname ≠ "")
    (hnf : check_dependency_fulfilled db df.options (doc.getValue df.fieldname) = false)
    (hfetch : remote_get_doc cfg.remote df.options (doc.getValue df.fieldname) = some master)
    (hins : insert_doc cfg db master (some (doc.getValue df.fieldname)) = Except.error e) :
    set_dependencies cfg (fuel + 1) db doc (df :: rest) =
      (match check_doc_has_dependencies cfg fuel db master with
       | (db1, none) => set_dependencies cfg fuel db1 master rest
       | (db1, some e1) => (db1, some e1)) ∧
    (∀ db1 : Database, check_doc_has_dependencies cfg fuel db master = (db1, none) →
      rest = [] → 0 < fuel →
      set_dependencies cfg (fuel + 1) db doc (df :: rest) = (db1, none)) := by
  have hval2 : (doc.getValue df.fieldname != "") = true := bne_iff_ne.2 hval
  have key : set_dependencies cfg (fuel + 1) db doc (df :: rest) =
      (match check_doc_has_dependencies cfg fuel db master with
       | (db1, none) => set_dependencies cfg fuel db1 master rest
       | (db1, some e1) => (db1, some e1)) := by
    unfold set_dependencies check_doc_has_dependencies
    rw [run_dep]
    rcases h : run_dep cfg fuel db (Job.checkDoc master) with ⟨db1, e1⟩
    cases e1 <;> simp [hval2, hnf, hfetch, hins, h]
  refine ⟨key, ?_⟩
  intro db1 hchk hrest hpos
  subst hrest
  rw [key, hchk]
  rcases fuel with _ | k
  · exact absurd hpos (lt_irrefl 0)
  · simp [set_dependencies, run_dep]

theorem set_dependencies_recursion_no_retry_witness :
    set_dependencies cfgDep 20 emptyDb docDep [⟨"d", "D"⟩] =
      ({ docs := [{ doctype := "E", name := "E-1", values := [], children := [] }],
         counter := 1 }, none) :=
  (set_dependencies_recursion_no_retry cfgDep 19 emptyDb docDep masterD ⟨"d", "D"⟩ []
    (SyncError.linkValidation "D" "D-1")
    (by decide) (by decide) (by decide) (by decide)).2
    { docs := [{ doctype := "E", name := "E-1", values := [], children := [] }], counter := 1 }
    (by decide) rfl (by decide)

theorem ext_by_refl (cfg : Config) (db : Database) : ext_by cfg db db :=
  ⟨[], by simp, by simp⟩

theorem ext_by_trans (cfg : Config) (db1 db2 db3 : Database)
    (h1 : ext_by cfg db1 db2) (h2 : ext_by cfg db2 db3) : ext_by cfg db1 db3 := by
  obtain ⟨e1, hd1, hp1⟩ := h1
  obtain ⟨e2, hd2, hp2⟩ := h2
  refine ⟨e1 ++ e2, by rw [hd2, hd1, List.append_assoc], ?_⟩
  intro d hd
  rcases List.mem_append.1 hd with h | h
  · exact hp1 d h
  · exact hp2 d h

/-- What a successful insert did: it appended the record under the
computed identity, and link validation held at insertion time. -/
theorem insert_doc_ok_extract (cfg : Config) (db : Database) (doc : Doc) (sn : Option String)
    (db1 : Database) (d1 : Doc) (h : insert_doc cfg db doc sn = Except.ok (db1, d1)) :
    db1.docs = db.docs ++ [{ doc with name := insert_name db sn }] ∧
    d1 = { doc with name := insert_name db sn } ∧
    validate_doc_links cfg db doc = true := by
  unfold insert_doc at h
  split at h
  · cases h
  · rename_i hv
    split at h
    · cases h
    · injection h with h1
      have hA : ({ docs := db.docs ++ [{ doc with name := insert_name db sn }],
                   counter := db.counter + 1 } : Database) = db1 :=
        congrArg Prod.fst h1
      have hB : ({ doc with name := insert_name db sn } : Doc) = d1 :=
        congrArg Prod.snd h1
      subst hA
      subst hB
      refine ⟨rfl, rfl, ?_⟩
      simpa using hv

/-- The dependency resolver only ever appends remote documents under their
source identity. -/
theorem run_dep_ext (cfg : Config) :
    ∀ (fuel : Nat) (db : Database) (job : Job),
      ext_by cfg db (run_dep cfg fuel db job).1 := by
  intro fuel
  induction fuel with
  | zero => intro db job; rw [run_dep]; exact ext_by_refl cfg db
  | succ fuel ih =>
    have step2 : ∀ (db : Database) (j1 : Job) (k : Database → Database × Option SyncError),
        (∀ db', ext_by cfg db' (k db').1) →
        ext_by cfg db (match run_dep cfg fuel db j1 with
          | (db1, some e) => (db1, some e)
          | (db1, none) => k db1).1 := by
      intro db j1 k hk
      rcases h1 : run_dep cfg fuel db j1 with ⟨db1, e1⟩
      have hx : ext_by cfg db db1 := by
        have := ih db j1
        rw [h1] at this
        exact this
      cases e1 with
      | some e => exact hx
      | none => exact ext_by_trans cfg db db1 (k db1).1 hx (hk db1)
    intro db job
    cases job with
    | checkDoc doc =>
      rw [run_dep]
      exact step2 db _ _ (fun db1 => step2 db1 _ _ (fun db2 => ih db2 _))
    | childTables doc tfs =>
      cases tfs with
      | nil => rw [run_dep]; exact ext_by_refl cfg db
      | cons tf rest =>
        rw [run_dep]
        exact step2 db _ _ (fun db1 => ih db1 _)
    | childRows entries =>
      cases entries with
      | nil => rw [run_dep]; exact ext_by_refl cfg db
      | cons entry rest =>
        rw [run_dep]
        exact step2 db _ _ (fun db1 => ih db1 _)
    | linkDeps doc lfs =>
      cases lfs with
      | nil => rw [run_dep]; exact ext_by_refl cfg db
      | cons df rest =>
        rw [run_dep]
        split
        · split
          · exact ext_by_refl cfg db
          · rename_i master hf
            split
            · rename_i r hi
              obtain ⟨hdocs, _, _⟩ :=
                insert_doc_ok_extract cfg db master (some (doc.getValue df.fieldname)) r.1 r.2 hi
              have hx : ext_by cfg db r.1 :=
                ⟨[{ master with name := insert_name db (some (doc.getValue df.fieldname)) }],
                 hdocs,
                 by
                  intro d hd
                  rcases List.mem_singleton.1 hd with rfl
                  exact ⟨df.options, doc.getValue df.fieldname, master, hf, rfl⟩⟩
              exact ext_by_trans cfg db r.1 _ hx (ih r.1 _)
            · exact step2 db _ _ (fun db1 => ih db1 _)
        · exact ih db _
    | dynDeps doc lfs =>
      cases lfs with
      | nil => rw [run_dep]; exact ext_by_refl cfg db
      | cons df rest =>
        rw [run_dep]
        split
        · split
          · exact ext_by_refl cfg db
          · rename_i master hf
            split
            · rename_i r hi
              obtain ⟨hdocs, _, _⟩ :=
                insert_doc_ok_extract cfg db master (some (doc.getValue df.fieldname)) r.1 r.2 hi
              have hx : ext_by cfg db r.1 :=
                ⟨[{ master with name := insert_name db (some (doc.getValue df.fieldname)) }],
                 hdocs,
                 by
                  intro d hd
                  rcases List.mem_singleton.1 hd with rfl
                  exact ⟨doc.getValue df.options, doc.getValue df.fieldname, master, hf, rfl⟩⟩
              exact ext_by_trans cfg db r.1 _ hx (ih r.1 _)
            · exact ext_by_refl cfg db
        · exact ih db _

theorem check_fulfilled_mono (db db1 : Database) (hsub : ∀ d, d ∈ db.docs → d ∈ db1.docs)
    (dt nm : String) (h : check_dependency_fulfilled db dt nm = true) :
    check_dependency_fulfilled db1 dt nm = true := by
  unfold check_dependency_fulfilled at h ⊢
  rcases List.any_eq_true.1 h with ⟨d, hd, hp⟩
  exact List.any_eq_true.2 ⟨d, hsub d hd, hp⟩

/-- A map that preserves doctype and name preserves the existence check. -/
theorem any_key_map (docs : List Doc) (f : Doc → Doc)
    (hf : ∀ d, (f d).doctype = d.doctype ∧ (f d).name = d.name) (dt nm : String) :
    (docs.map f).any (fun d => d.doctype == dt && d.name == nm) =
      docs.any (fun d => d.doctype == dt && d.name == nm) := by
  induction docs with
  | nil => rfl
  | cons d rest ih => simp [ih, (hf d).1, (hf d).2]

theorem check_fulfilled_set_doc_value (db : Database) (dt0 nm0 k v dt nm : String) :
    check_dependency_fulfilled (set_doc_value db dt0 nm0 k v) dt nm =
      check_dependency_fulfilled db dt nm := by
  unfold check_dependency_fulfilled set_doc_value
  exact any_key_map db.docs _
    (fun d => by
      by_cases hd : (d.doctype == dt0 && d.name == nm0) = true <;>
        simp [hd, Doc.setValue])
    dt nm

/-- Link validation implies each nonempty direct-link value of the record
resolves locally. -/
theorem links_ok_link_field (cfg : Config) (db : Database) (dt : String)
    (values : List (String × String)) (h : links_ok cfg db dt values = true)
    (df : LinkField) (hdf : df ∈ (cfg.meta dt).link_fields)
    (hv : value_of values df.fieldname ≠ "") :
    check_dependency_fulfilled db df.options (value_of values df.fieldname) = true := by
  unfold links_ok at h
  rw [Bool.and_eq_true] at h
  have h2 := List.all_eq_true.1 h.1 df hdf
  rw [Bool.or_eq_true] at h2
  rcases h2 with h3 | h3
  · exact absurd (beq_iff_eq.1 h3) hv
  · exact h3

/-- C5: every record the dependency resolver adds to the database is a
remote document inserted under its source identity (independently of any
naming policy), and for a Create that actually inserted its record, every
nonempty direct-link value of the payload passes the existence check in
the resulting database. -/
theorem dependencies_source_named_and_precede (cfg : Config) (fuel : Nat) (db : Database)
    (doc : Doc) :
    (∀ d, d ∈ (check_doc_has_dependencies cfg fuel db doc).1.docs →
      d ∈ db.docs ∨ remote_named cfg d) ∧
    (∀ (u : Update) (db1 : Database),
      u.data = some doc →
      db.docs.any (fun d => d.doctype == u.ref_doctype && d.name == u.docname) = false →
      set_insert cfg fuel db u cfg.producer = (db1, none) →
      ∀ df, df ∈ (cfg.meta doc.doctype).link_fields →
        doc.getValue df.fieldname ≠ "" →
        check_dependency_fulfilled db1 df.options (doc.getValue df.fieldname) = true) := by
  constructor
  · intro d hd
    obtain ⟨ext, hdocs, hp⟩ := run_dep_ext cfg fuel db (Job.checkDoc doc)
    rw [show (check_doc_has_dependencies cfg fuel db doc).1.docs =
        db.docs ++ ext from hdocs] at hd
    rcases List.mem_append.1 hd with h | h
    · exact Or.inl h
    · exact Or.inr (hp d h)
  · intro u db1 hdata hpre hins df hdf hv
    unfold set_insert at hins
    rw [hpre, hdata] at hins
    simp only [Bool.false_eq_true, if_false] at hins
    split at hins
    · simp at hins
    · rename_i db2 heq2
      have key : ∀ (r1 : Database) (r2 : Doc) (sn : Option String),
          insert_doc cfg db2 doc sn = Except.ok (r1, r2) →
          check_dependency_fulfilled r1 df.options (doc.getValue df.fieldname) = true := by
        intro r1 r2 sn hok
        obtain ⟨hdocs1, _, hval⟩ := insert_doc_ok_extract cfg db2 doc sn r1 r2 hok
        have hlnk : links_ok cfg db2 doc.doctype doc.values = true := by
          unfold validate_doc_links at hval
          rw [Bool.and_eq_true] at hval
          exact hval.1
        have hc2 : check_dependency_fulfilled db2 df.options (doc.getValue df.fieldname) = true :=
          links_ok_link_field cfg db2 doc.doctype doc.values hlnk df hdf hv
        exact check_fulfilled_mono db2 r1
          (fun d hd => by rw [hdocs1]; exact List.mem_append_left _ hd)
          df.options (doc.getValue df.fieldname) hc2
      split at hins
      · split at hins
        · rename_i r hok
          have h1 : r.1 = db1 := congrArg Prod.fst hins
          rw [← h1]
          exact key r.1 r.2 (some u.docname) hok
        · simp at hins
      · split at hins
        · rename_i r hok
          have h1 : set_custom_fields r.1 r.2 u.docname cfg.producer = db1 :=
            congrArg Prod.fst hins
          rw [← h1]
          unfold set_custom_fields
          rw [check_fulfilled_set_doc_value, check_fulfilled_set_doc_value]
          exact key r.1 r.2 none hok
        · simp at hins

theorem dependencies_source_named_and_precede_witness :
    (({ doctype := "Project", name := "P-1", values := [], children := [] } : Doc) ∈
        emptyDb.docs ∨
      remote_named cfgTask { doctype := "Project", name := "P-1", values := [], children := [] }) ∧
    check_dependency_fulfilled
      (set_insert cfgTask 10 emptyDb updTask cfgTask.producer).1 "Project" "P-1" = true := by
  constructor
  · exact (dependencies_source_named_and_precede cfgTask 10 emptyDb docTask).1
      { doctype := "Project", name := "P-1", values := [], children := [] } (by decide)
  · exact (dependencies_source_named_and_precede cfgTask 10 emptyDb docTask).2
      updTask (set_insert cfgTask 10 emptyDb updTask cfgTask.producer).1 rfl (by decide)
      (by decide) ⟨"project", "Project"⟩ (by decide) (by decide)

theorem apply_update_delete_eq (cfg : Config) (fuel : Nat) (db : Database) (u : Update)
    (ht : u.update_type = UpdateType.Delete) :
    apply_update cfg fuel db u = set_delete db u := by
  unfold apply_update
  rcases h : set_delete db u with ⟨db1, e1⟩
  cases e1 <;> simp [ht, h]

theorem apply_update_create_eq (cfg : Config) (fuel : Nat) (db : Database) (u : Update)
    (ht : u.update_type = UpdateType.Create) :
    apply_update cfg fuel db u = set_insert cfg fuel db u cfg.producer := by
  unfold apply_update
  rcases h : set_insert cfg fuel db u cfg.producer with ⟨db1, e1⟩
  cases e1 <;> simp [ht, h]

theorem apply_update_update_eq (cfg : Config) (fuel : Nat) (db : Database) (u : Update)
    (ht : u.update_type = UpdateType.Update) :
    apply_update cfg fuel db u = set_update cfg fuel db u := by
  unfold apply_update
  rcases h : set_update cfg fuel db u with ⟨db1, e1⟩
  cases e1 <;> simp [ht, h]

/-- Unpack a successful direct-identity lookup. -/
theorem get_local_doc_same_eq (db : Database) (u : Update) (L : Doc)
    (hn : u.use_same_name = true) (hL : get_local_doc db u = some L) :
    db.docs.find? (fun d => d.doctype == u.ref_doctype && d.name == u.docname) = some L ∧
    L.doctype = u.ref_doctype ∧ L.name = u.docname := by
  unfold get_local_doc at hL
  rw [hn] at hL
  simp only [Bool.not_true, Bool.false_eq_true, if_false] at hL
  have hp := List.find?_some hL
  rw [Bool.and_eq_true] at hp
  exact ⟨hL, beq_iff_eq.1 hp.1, beq_iff_eq.1 hp.2⟩

/-- Unpack a successful remote-identity lookup. -/
theorem get_local_doc_remote_eq (db : Database) (u : Update) (L : Doc)
    (hn : u.use_same_name = false) (hL : get_local_doc db u = some L) :
    db.docs.find? (fun d =>
      d.doctype == u.ref_doctype && d.getValue "remote_docname" == u.docname) = some L ∧
    (L.doctype == u.ref_doctype && L.getValue "remote_docname" == u.docname) = true := by
  unfold get_local_doc at hL
  rw [hn] at hL
  simp only [Bool.not_false, if_true] at hL
  have hp := List.find?_some hL
  exact ⟨hL, hp⟩

/-- After deleting the found record, a direct-identity lookup comes back
empty; a remote-identity lookup also does when the remote-identity pair was
carried by at most one record. -/
theorem get_local_doc_after_remove (db : Database) (u : Update) (L : Doc)
    (hL : get_local_doc db u = some L)
    (huniq : u.use_same_name = false →
      ∀ d1, d1 ∈ db.docs → ∀ d2, d2 ∈ db.docs →
        (d1.doctype == u.ref_doctype && d1.getValue "remote_docname" == u.docname) = true →
        (d2.doctype == u.ref_doctype && d2.getValue "remote_docname" == u.docname) = true →
        d1 = d2) :
    get_local_doc (remove_doc db L.doctype L.name) u = none := by
  cases hn : u.use_same_name with
  | true =>
    obtain ⟨hfind, hdt, hnm⟩ := get_local_doc_same_eq db u L hn hL
    unfold get_local_doc remove_doc
    rw [hn]
    simp only [Bool.not_true, Bool.false_eq_true, if_false]
    rw [List.find?_eq_none]
    intro x hx
    rcases List.mem_filter.1 hx with ⟨_, hxf⟩
    intro hpx
    rw [Bool.and_eq_true] at hpx
    rw [beq_iff_eq.1 hpx.1, beq_iff_eq.1 hpx.2, ← hdt, ← hnm] at hxf
    simp at hxf
  | false =>
    obtain ⟨hfind, hpL⟩ := get_local_doc_remote_eq db u L hn hL
    have hLmem : L ∈ db.docs := List.mem_of_find?_eq_some hfind
    unfold get_local_doc remove_doc
    rw [hn]
    simp only [Bool.not_false, if_true]
    rw [List.find?_eq_none]
    intro x hx
    rcases List.mem_filter.1 hx with ⟨hxm, hxf⟩
    intro hpx
    have hxL : x = L := huniq hn x hxm L hLmem hpx hpL
    rw [hxL] at hxf
    simp at hxf

/-- Deleting twice is deleting once (given remote-identity uniqueness for
the generated-name policy). -/
theorem set_delete_idem (db : Database) (u : Update)
    (huniq : u.use_same_name = false →
      ∀ d1, d1 ∈ db.docs → ∀ d2, d2 ∈ db.docs →
        (d1.doctype == u.ref_doctype && d1.getValue "remote_docname" == u.docname) = true →
        (d2.doctype == u.ref_doctype && d2.getValue "remote_docname" == u.docname) = true →
        d1 = d2) :
    set_delete (set_delete db u).1 u = ((set_delete db u).1, none) := by
  rcases hL : get_local_doc db u with _ | L
  · have h1 : set_delete db u = (db, none) := by unfold set_delete; rw [hL]
    rw [h1]
    exact h1
  · have h1 : set_delete db u = (remove_doc db L.doctype L.name, none) := by
      unfold set_delete; rw [hL]
    rw [h1]
    have h2 := get_local_doc_after_remove db u L hL huniq
    show set_delete (remove_doc db L.doctype L.name) u = (remove_doc db L.doctype L.name, none)
    unfold set_delete
    rw [h2]

/-- Re-applying a successful Create under the preserved remote name is a
no-op: the record now exists under exactly the looked-up identity. -/
theorem set_insert_idem (cfg : Config) (fuel : Nat) (db : Database) (u : Update)
    (hn : u.use_same_name = true)
    (hdt : ∀ d, u.data = some d → d.doctype = u.ref_doctype)
    (hok : (set_insert cfg fuel db u cfg.producer).2 = none) :
    set_insert cfg fuel (set_insert cfg fuel db u cfg.producer).1 u cfg.producer =
      ((set_insert cfg fuel db u cfg.producer).1, none) := by
  cases hpre : db.docs.any (fun d => d.doctype == u.ref_doctype && d.name == u.docname) with
  | true =>
    have h1 : set_insert cfg fuel db u cfg.producer = (db, none) := by
      unfold set_insert
      simp [hpre]
    rw [h1]
    exact h1
  | false =>
    unfold set_insert at hok
    rw [hpre] at hok
    simp only [Bool.false_eq_true, if_false] at hok
    split at hok
    · simp at hok
    · rename_i doc hdata
      split at hok
      · simp at hok
      · rename_i db2 heq2
        split at hok
        · split at hok
          · rename_i r hins
            have h1 : set_insert cfg fuel db u cfg.producer = (r.1, none) := by
              unfold set_insert
              simp [hpre, hdata, heq2, hn, hins]
            rw [h1]
            show set_insert cfg fuel r.1 u cfg.producer = (r.1, none)
            have hdocs := (insert_doc_ok_extract cfg db2 doc (some u.docname) r.1 r.2 hins).1
            have hpre2 : r.1.docs.any
                (fun d => d.doctype == u.ref_doctype && d.name == u.docname) = true := by
              rw [hdocs, List.any_append, Bool.or_eq_true]
              right
              simp [insert_name, hdt doc hdata]
            unfold set_insert
            simp [hpre2]
          · simp at hok
        · rename_i hfalse
          exact absurd hn hfalse

theorem map_self {β : Type} (l : List β) (f : β → β) (h : ∀ x ∈ l, f x = x) :
    l.map f = l := by
  induction l with
  | nil => rfl
  | cons a t ih => simp [h a (by simp), ih (fun x hx => h x (by simp [hx]))]

/-- Replacing the record that a direct-identity lookup finds makes the
lookup return the replacement (when it carries the same identity). -/
theorem find?_map_replace (l : List Doc) (dt nm : String) (newDoc : Doc)
    (hdt : newDoc.doctype = dt) (hnm : newDoc.name = nm)
    (hfind : (l.find? (fun d => d.doctype == dt && d.name == nm)).isSome = true) :
    (l.map (fun d => if d.doctype == dt && d.name == nm then newDoc else d)).find?
      (fun d => d.doctype == dt && d.name == nm) = some newDoc := by
  induction l with
  | nil => simp at hfind
  | cons a t ih =>
    rw [List.map_cons]
    by_cases ha : (a.doctype == dt && a.name == nm) = true
    · have hhead : (if a.doctype == dt && a.name == nm then newDoc else a) = newDoc := by
        simp [ha]
      rw [hhead]
      exact List.find?_cons_of_pos _ (by simp [hdt, hnm])
    · have hhead : (if a.doctype == dt && a.name == nm then newDoc else a) = a := by
        simp [ha]
      rw [hhead]
      have hstep : List.find? (fun d => d.doctype == dt && d.name == nm)
          (a :: t.map (fun d => if d.doctype == dt && d.name == nm then newDoc else d)) =
          List.find? (fun d => d.doctype == dt && d.name == nm)
            (t.map (fun d => if d.doctype == dt && d.name == nm then newDoc else d)) :=
        List.find?_cons_of_neg _ ha
      have hstep2 : List.find? (fun d => d.doctype == dt && d.name == nm) (a :: t) =
          List.find? (fun d => d.doctype == dt && d.name == nm) t :=
        List.find?_cons_of_neg _ ha
      rw [hstep]
      apply ih
      rw [hstep2] at hfind
      exact hfind

theorem map_replace_idem (l : List Doc) (dt nm : String) (m : Doc)
    (hdt : m.doctype = dt) (hnm : m.name = nm) :
    (l.map (fun d0 => if d0.doctype == dt && d0.name == nm then m else d0)).map
      (fun d0 => if d0.doctype == dt && d0.name == nm then m else d0) =
    l.map (fun d0 => if d0.doctype == dt && d0.name == nm then m else d0) := by
  induction l with
  | nil => rfl
  | cons a t ih =>
    simp only [List.map_cons, ih]
    congr 1
    by_cases ha : (a.doctype == dt && a.name == nm) = true
    · simp [ha, hdt, hnm]
    · simp [ha]

theorem replace_doc_idem (db : Database) (dt nm : String) (m : Doc)
    (hdt : m.doctype = dt) (hnm : m.name = nm) :
    replace_doc (replace_doc db dt nm m) dt nm m = replace_doc db dt nm m := by
  unfold replace_doc
  congr 1
  exact map_replace_idem db.docs dt nm m hdt hnm

/-- Merging the same association updates twice is merging them once. -/
theorem assoc_update_idem {α : Type} (base upd : List (String × α))
    (hnodup : (upd.map Prod.fst).Nodup) :
    assoc_update (assoc_update base upd) upd = assoc_update base upd := by
  have keykey : ∀ q ∈ upd,
      (assoc_update base upd).any (fun kv => kv.1 == q.1) = true := by
    intro q hq
    by_cases hb : base.any (fun kv => kv.1 == q.1) = true
    · rcases List.any_eq_true.1 hb with ⟨kv, hkv, hpk⟩
      apply List.any_eq_true.2
      refine ⟨(match upd.find? (fun p => p.1 == kv.1) with
               | some p => (kv.1, p.2)
               | none => kv), ?_, ?_⟩
      · unfold assoc_update
        exact List.mem_append_left _ (List.mem_map.2 ⟨kv, hkv, rfl⟩)
      · rcases h : upd.find? (fun p => p.1 == kv.1) with _ | p <;> simp [h] <;> exact beq_iff_eq.1 hpk
    · rw [Bool.not_eq_true] at hb
      apply List.any_eq_true.2
      refine ⟨q, ?_, by simp⟩
      unfold assoc_update
      apply List.mem_append_right
      exact List.mem_filter.2 ⟨hq, by simp [hb]⟩
  have hmap : ∀ kv ∈ assoc_update base upd,
      (match upd.find? (fun p => p.1 == kv.1) with
       | some p => (kv.1, p.2)
       | none => kv) = kv := by
    intro kv hkv
    unfold assoc_update at hkv
    rcases List.mem_append.1 hkv with hkv | hkv
    · rcases List.mem_map.1 hkv with ⟨kv0, hkv0, heq⟩
      rcases h : upd.find? (fun p => p.1 == kv0.1) with _ | p
      · simp only [h] at heq
        rw [← heq]
        simp [h]
      · simp only [h] at heq
        rw [← heq]
        simp [h]
    · rcases List.mem_filter.1 hkv with ⟨hkvu, _⟩
      rcases h : upd.find? (fun p => p.1 == kv.1) with _ | q
      · exfalso
        have hnone := List.find?_eq_none.1 h kv hkvu
        simp at hnone
      · have hq1 := List.find?_some h
        have hqm := List.mem_of_find?_eq_some h
        have hqv : q = kv := List.inj_on_of_nodup_map hnodup hqm hkvu (beq_iff_eq.1 hq1)
        rw [hqv] at h
        simp [h]
  have hfilter : upd.filter
      (fun p => !((assoc_update base upd).any (fun kv => kv.1 == p.1))) = [] := by
    rw [List.filter_eq_nil_iff]
    intro p hp
    simp [keykey p hp]
  generalize hB : assoc_update base upd = B at keykey hmap hfilter ⊢
  unfold assoc_update
  rw [map_self B _ hmap, hfilter, List.append_nil]

theorem doc_update_idem (L d : Doc)
    (h1 : (d.values.map Prod.fst).Nodup) (h2 : (d.children.map Prod.fst).Nodup) :
    doc_update (doc_update L d) d = doc_update L d := by
  unfold doc_update
  simp [assoc_update_idem _ _ h1, assoc_update_idem _ _ h2]

/-- Re-applying a successful Update under the preserved remote name is a
no-op, provided the payload's keys are duplicate-free and re-resolving the
merged record's dependencies leaves the database unchanged. -/
theorem set_update_idem (cfg : Config) (fuel : Nat) (db : Database) (u : Update) (d M : Doc)
    (hn : u.use_same_name = true)
    (hdata : u.data = some d)
    (hnodupv : (d.values.map Prod.fst).Nodup)
    (hnodupc : (d.children.map Prod.fst).Nodup)
    (hok : (set_update cfg fuel db u).2 = none)
    (hM : get_local_doc (set_update cfg fuel db u).1 u = some M)
    (hdep : check_doc_has_dependencies cfg fuel (set_update cfg fuel db u).1 M =
      ((set_update cfg fuel db u).1, none)) :
    set_update cfg fuel (set_update cfg fuel db u).1 u =
      ((set_update cfg fuel db u).1, none) := by
  unfold set_update at hok
  split at hok
  · rename_i hL
    have h1 : set_update cfg fuel db u = (db, none) := by unfold set_update; rw [hL]
    rw [h1] at hM
    rw [show ((db, none) : Database × Option SyncError).1 = db from rfl, hL] at hM
    cases hM
  · rename_i L hL
    split at hok
    · simp at hok
    · rename_i dd hdd
      have hdd2 : d = dd := by
        rw [hdata] at hdd
        exact Option.some.inj hdd
      rw [← hdd2] at hok
      split at hok
      · simp at hok
      · rename_i db2 heq2
        have h1 : set_update cfg fuel db u =
            (replace_doc db2 L.doctype L.name (doc_update L d), none) := by
          unfold set_update
          simp [hL, hdata, heq2]
        obtain ⟨hfindL, hdtL, hnmL⟩ := get_local_doc_same_eq db u L hn hL
        have hx := run_dep_ext cfg fuel db (Job.checkDoc L)
        rw [show run_dep cfg fuel db (Job.checkDoc L) = (db2, none) from heq2] at hx
        obtain ⟨ext, hdocs2x, _⟩ := hx
        have hdocs2 : db2.docs = db.docs ++ ext := hdocs2x
        have hfind2 : db2.docs.find?
            (fun d0 => d0.doctype == L.doctype && d0.name == L.name) = some L := by
          rw [hdtL, hnmL, hdocs2, List.find?_append, hfindL]
          rfl
        have hMfind : get_local_doc (replace_doc db2 L.doctype L.name (doc_update L d)) u =
            some (doc_update L d) := by
          unfold get_local_doc replace_doc
          rw [hn]
          simp only [Bool.not_true, Bool.false_eq_true, if_false]
          rw [← hdtL, ← hnmL]
          apply find?_map_replace
          · rfl
          · rfl
          · rw [hfind2]
            rfl
        have hMM : M = doc_update L d := by
          rw [h1] at hM
          have hM2 : get_local_doc (replace_doc db2 L.doctype L.name (doc_update L d)) u =
              some M := hM
          rw [hMfind] at hM2
          exact (Option.some.inj hM2).symm
        subst hMM
        rw [h1] at hdep
        have hdep2 : check_doc_has_dependencies cfg fuel
            (replace_doc db2 L.doctype L.name (doc_update L d)) (doc_update L d) =
            (replace_doc db2 L.doctype L.name (doc_update L d), none) := hdep
        rw [h1]
        show set_update cfg fuel (replace_doc db2 L.doctype L.name (doc_update L d)) u =
          (replace_doc db2 L.doctype L.name (doc_update L d), none)
        unfold set_update
        rw [hMfind, hdata]
        simp only [hdep2]
        rw [doc_update_idem L d hnodupv hnodupc]
        have hrepl : replace_doc (replace_doc db2 L.doctype L.name (doc_update L d))
            (doc_update L d).doctype (doc_update L d).name (doc_update L d) =
            replace_doc db2 L.doctype L.name (doc_update L d) := by
          show replace_doc (replace_doc db2 L.doctype L.name (doc_update L d))
            L.doctype L.name (doc_update L d) =
            replace_doc db2 L.doctype L.name (doc_update L d)
          exact replace_doc_idem db2 L.doctype L.name (doc_update L d) rfl rfl
        rw [hrepl]

/-- C3 counterexample: with `preserveRemoteName = false`, re-applying the
same Create is not idempotent.  The pre-existence check of `set_insert`
looks the remote docname up as a local identity and never through the
`remote_docname` attribute, so although the record exists (the
remote-identity lookup finds it), a second apply inserts a duplicate. -/
theorem create_remote_identity_not_checked :
    (apply_update cfgGen 10 emptyDb updCreateGen).2 = none ∧
    (get_local_doc (apply_update cfgGen 10 emptyDb updCreateGen).1 updCreateGen).isSome = true ∧
    (apply_update cfgGen 10 (apply_update cfgGen 10 emptyDb updCreateGen).1 updCreateGen).1 ≠
      (apply_update cfgGen 10 emptyDb updCreateGen).1 ∧
    ((apply_update cfgGen 10 emptyDb updCreateGen).1).docs.length = 1 ∧
    ((apply_update cfgGen 10 (apply_update cfgGen 10 emptyDb updCreateGen).1
        updCreateGen).1).docs.length = 2 := by
  decide

/-- C3 amended: applying the same ChangeRecord twice equals applying it
once for Delete (given the at-most-one-remote-identity invariant), for
Create under the preserved remote name (when the first apply succeeded),
and for Update under the preserved remote name (when the first apply
succeeded, the payload's keys are duplicate-free, and re-resolving the
merged record's dependencies is a no-op); a Create under a generated name
is not idempotent, because the pre-existence check uses the remote docname
as a direct local identity instead of the remote-identity lookup. -/
theorem apply_idempotent_amended (cfg : Config) (fuel : Nat) (db : Database) (u : Update) :
    (u.update_type = UpdateType.Delete →
      (u.use_same_name = false →
        ∀ d1, d1 ∈ db.docs → ∀ d2, d2 ∈ db.docs →
          (d1.doctype == u.ref_doctype && d1.getValue "remote_docname" == u.docname) = true →
          (d2.doctype == u.ref_doctype && d2.getValue "remote_docname" == u.docname) = true →
          d1 = d2) →
      apply_update cfg fuel (apply_update cfg fuel db u).1 u =
        ((apply_update cfg fuel db u).1, none)) ∧
    (u.update_type = UpdateType.Create → u.use_same_name = true →
      (∀ d, u.data = some d → d.doctype = u.ref_doctype) →
      (apply_update cfg fuel db u).2 = none →
      apply_update cfg fuel (apply_update cfg fuel db u).1 u =
        ((apply_update cfg fuel db u).1, none)) ∧
    (u.update_type = UpdateType.Update → u.use_same_name = true →
      (apply_update cfg fuel db u).2 = none →
      ∀ d M, u.data = some d →
        (d.values.map Prod.fst).Nodup →
        (d.children.map Prod.fst).Nodup →
        get_local_doc (apply_update cfg fuel db u).1 u = some M →
        check_doc_has_dependencies cfg fuel (apply_update cfg fuel db u).1 M =
          ((apply_update cfg fuel db u).1, none) →
        apply_update cfg fuel (apply_update cfg fuel db u).1 u =
          ((apply_update cfg fuel db u).1, none)) := by
  refine ⟨?_, ?_, ?_⟩
  · intro ht huniq
    rw [apply_update_delete_eq cfg fuel db u ht,
        apply_update_delete_eq cfg fuel (set_delete db u).1 u ht]
    exact set_delete_idem db u huniq
  · intro ht hn hdt hok
    rw [apply_update_create_eq cfg fuel db u ht] at hok ⊢
    rw [apply_update_create_eq cfg fuel (set_insert cfg fuel db u cfg.producer).1 u ht]
    exact set_insert_idem cfg fuel db u hn hdt hok
  · intro ht hn hok d M hdata h1 h2 hM hdep
    rw [apply_update_update_eq cfg fuel db u ht] at hok hM hdep ⊢
    rw [apply_update_update_eq cfg fuel (set_update cfg fuel db u).1 u ht]
    exact set_update_idem cfg fuel db u d M hn hdata h1 h2 hok hM hdep

theorem apply_idempotent_amended_witness :
    apply_update cfgPlain 10 (apply_update cfgPlain 10 dbOne updDeleteT1).1 updDeleteT1 =
      ((apply_update cfgPlain 10 dbOne updDeleteT1).1, none) ∧
    apply_update cfgPlain 10 (apply_update cfgPlain 10 emptyDb updCreateT1).1 updCreateT1 =
      ((apply_update cfgPlain 10 emptyDb updCreateT1).1, none) ∧
    apply_update cfgPlain 10 (apply_update cfgPlain 10 dbOne updUpdateT1).1 updUpdateT1 =
      ((apply_update cfgPlain 10 dbOne updUpdateT1).1, none) :=
  ⟨(apply_idempotent_amended cfgPlain 10 dbOne updDeleteT1).1 rfl (by decide),
   (apply_idempotent_amended cfgPlain 10 emptyDb updCreateT1).2.1 rfl rfl
     (by intro d hd; cases hd; rfl) (by decide),
   (apply_idempotent_amended cfgPlain 10 dbOne updUpdateT1).2.2 rfl rfl (by decide)
     docT1 docT1 rfl (by decide) (by decide) (by decide) (by decide)⟩

end EventProducer
